import Mathlib

/-!
Verification of the interactive-transaction module (`src/transaction.rs`) of
libsql-client-rs.

The module is a thin wrapper around an external `DatabaseClient` capability.
We embed the client as an oracle that answers each call as a function of the
calls it has already observed, and we record every call the wrapper makes in
an explicit trace, so that ordering and call-count properties become equations
on traces.  Rust move semantics (`commit`/`rollback` take `self` by value,
`execute` takes `&self`) are embedded as a legality predicate on the sequences
of operations a caller can issue against one handle.
-/

namespace LibsqlClient

/-- Modelled from the spec: `Statement` (declared outside `src/transaction.rs`)
is "a unit of database command text optionally paired with positional or named
arguments"; the transaction module treats it as an opaque value it forwards
unmodified. -/
structure Statement where
  sql : String
  args : List String
  deriving DecidableEq, Repr

/-- Modelled from the spec: `Statement::new` converts plain text into a
canonical statement (the "conversion from plain text" of the collaborator
contract). -/
def Statement.new (sql : String) : Statement :=
  { sql := sql, args := [] }

/-- One observable call made to the underlying client capability: either a
batch submission or a single-statement execution. -/
inductive ClientCall where
  | rawBatch (stmts : List Statement)
  | execute (stmt : Statement)
  deriving DecidableEq, Repr

/-- Modelled from the spec: the `DatabaseClient` collaborator contract
(`raw_batch(statements) -> Result<()>`, `execute(statement) -> Result<ResultSet>`),
declared outside `src/transaction.rs`.  The client is an oracle: its response
to a call may depend on the trace of calls it has already observed.  `E` is
the client's error type and `R` its result-set type, both opaque here. -/
structure Client (E R : Type) where
  rawBatchResp : List ClientCall → List Statement → Except E Unit
  executeResp : List ClientCall → Statement → Except E R

variable {E R : Type} {α : Type}

/-- The client's `raw_batch` operation: returns the oracle's response and
appends the call to the observed trace. -/
def Client.rawBatch (c : Client E R) (tr : List ClientCall) (stmts : List Statement) :
    Except E Unit × List ClientCall :=
  (c.rawBatchResp tr stmts, tr ++ [ClientCall.rawBatch stmts])

/-- The client's single-statement `execute` operation: returns the oracle's
response and appends the call to the observed trace. -/
def Client.execute (c : Client E R) (tr : List ClientCall) (stmt : Statement) :
    Except E R × List ClientCall :=
  (c.executeResp tr stmt, tr ++ [ClientCall.execute stmt])

/-- The `Transaction` handle of `src/transaction.rs`: its only field is the
shared, non-owning reference to the client. -/
structure Transaction (E R : Type) where
  client : Client E R

/-- `Transaction::new`: issues a single-element batch `[Statement::new("BEGIN")]`
through the client's `raw_batch`; the `?` operator propagates a failure
unchanged, otherwise the open handle holding the client is returned. -/
def Transaction.new (client : Client E R) (tr : List ClientCall) :
    Except E (Transaction E R) × List ClientCall :=
  match Client.rawBatch client tr [Statement.new "BEGIN"] with
  | (Except.error e, tr') => (Except.error e, tr')
  | (Except.ok _, tr') => (Except.ok { client := client }, tr')

/-- `Transaction::execute`: converts the argument into a `Statement` (the
`impl Into<Statement>` bound, embedded as an explicit conversion function
`into`) and forwards it to the client's single-statement `execute`, returning
the client's response unchanged. -/
def Transaction.execute (t : Transaction E R) (tr : List ClientCall)
    (into : α → Statement) (x : α) : Except E R × List ClientCall :=
  Client.execute t.client tr (into x)

/-- `Transaction::commit`: sends the literal statement `COMMIT` through the
client's single-statement `execute`; `?` propagates a failure unchanged,
otherwise the result set is discarded and `Ok(())` is returned. -/
def Transaction.commit (t : Transaction E R) (tr : List ClientCall) :
    Except E Unit × List ClientCall :=
  match Client.execute t.client tr (Statement.new "COMMIT") with
  | (Except.error e, tr') => (Except.error e, tr')
  | (Except.ok _, tr') => (Except.ok (), tr')

/-- `Transaction::rollback`: sends the literal statement `ROLLBACK` through the
client's single-statement `execute`; `?` propagates a failure unchanged,
otherwise the result set is discarded and `Ok(())` is returned. -/
def Transaction.rollback (t : Transaction E R) (tr : List ClientCall) :
    Except E Unit × List ClientCall :=
  match Client.execute t.client tr (Statement.new "ROLLBACK") with
  | (Except.error e, tr') => (Except.error e, tr')
  | (Except.ok _, tr') => (Except.ok (), tr')

/-- The operations a caller can attempt on one transaction handle after it has
been constructed. -/
inductive TxOp where
  | execute (stmt : Statement)
  | commit
  | rollback
  deriving DecidableEq, Repr

/-- Receiver mode of each method in the source: `execute` borrows the handle
(`&self`) while `commit` and `rollback` take it by value (`self`), consuming
it. -/
def TxOp.consumesHandle : TxOp → Bool
  | TxOp.execute _ => false
  | TxOp.commit => true
  | TxOp.rollback => true

/-- Call sequences on a single handle that Rust ownership admits, given the
receiver modes of the source: once a consuming method (`commit` or `rollback`)
is called the handle is moved out, so a consuming operation can only be the
last operation issued. -/
def handleLegal : List TxOp → Bool
  | [] => true
  | op :: rest => if TxOp.consumesHandle op then rest.isEmpty else handleLegal rest

/-- Runs a sequence of `Transaction::execute` calls against one handle,
threading the client trace.  `execute` takes `&self`, so each iteration uses
the same handle value; the handle after the run is returned together with the
final trace. -/
def runExecutes (t : Transaction E R) (tr : List ClientCall) :
    List Statement → Transaction E R × List ClientCall
  | [] => (t, tr)
  | s :: rest => runExecutes t (Transaction.execute t tr id s).2 rest

/-- A concrete client whose oracle answers every call successfully;
used to exercise the theorems on closed inputs. -/
def okClient : Client String Nat :=
  { rawBatchResp := fun _ _ => Except.ok ()
    executeResp := fun _ _ => Except.ok 0 }

/-- A concrete client whose oracle rejects every call;
used to exercise the failure paths on closed inputs. -/
def failClient : Client String Nat :=
  { rawBatchResp := fun _ _ => Except.error "down"
    executeResp := fun _ _ => Except.error "down" }

/-- A concrete client that accepts batches but rejects single-statement
execution; used to exercise a failing mid-transaction `execute`. -/
def execFailClient : Client String Nat :=
  { rawBatchResp := fun _ _ => Except.ok ()
    executeResp := fun _ _ => Except.error "stmt failed" }

theorem Transaction.new_eq (client : Client E R) (tr : List ClientCall) :
    Transaction.new client tr =
      ((client.rawBatchResp tr [Statement.new "BEGIN"]).map
          (fun _ => Transaction.mk client),
        tr ++ [ClientCall.rawBatch [Statement.new "BEGIN"]]) := by
  cases h : client.rawBatchResp tr [Statement.new "BEGIN"] <;>
    simp [Transaction.new, Client.rawBatch, h, Except.map]

theorem Transaction.commit_eq (t : Transaction E R) (tr : List ClientCall) :
    Transaction.commit t tr =
      ((t.client.executeResp tr (Statement.new "COMMIT")).map (fun _ => ()),
        tr ++ [ClientCall.execute (Statement.new "COMMIT")]) := by
  cases h : t.client.executeResp tr (Statement.new "COMMIT") <;>
    simp [Transaction.commit, Client.execute, h, Except.map]

theorem Transaction.rollback_eq (t : Transaction E R) (tr : List ClientCall) :
    Transaction.rollback t tr =
      ((t.client.executeResp tr (Statement.new "ROLLBACK")).map (fun _ => ()),
        tr ++ [ClientCall.execute (Statement.new "ROLLBACK")]) := by
  cases h : t.client.executeResp tr (Statement.new "ROLLBACK") <;>
    simp [Transaction.rollback, Client.execute, h, Except.map]

theorem runExecutes_trace (t : Transaction E R) (tr : List ClientCall)
    (stmts : List Statement) :
    (runExecutes t tr stmts).2 = tr ++ stmts.map ClientCall.execute := by
  induction stmts generalizing tr with
  | nil => simp [runExecutes]
  | cons s rest ih =>
    simp [runExecutes, Transaction.execute, Client.execute, ih]

theorem runExecutes_handle (t : Transaction E R) (tr : List ClientCall)
    (stmts : List Statement) :
    (runExecutes t tr stmts).1 = t := by
  induction stmts generalizing tr with
  | nil => rfl
  | cons s rest ih => simp [runExecutes, ih]

theorem handleLegal_filter_le_one (ops : List TxOp) (h : handleLegal ops = true) :
    (ops.filter TxOp.consumesHandle).length ≤ 1 := by
  induction ops with
  | nil => simp
  | cons op rest ih =>
    by_cases hc : TxOp.consumesHandle op = true
    · have hr : rest.isEmpty = true := by simpa [handleLegal, hc] using h
      have hrest : rest = [] := by
        cases rest with
        | nil => rfl
        | cons b l => simp [List.isEmpty] at hr
      subst hrest
      simp [hc]
    · have hb : TxOp.consumesHandle op = false := by
        cases hcv : TxOp.consumesHandle op
        · rfl
        · exact absurd hcv hc
      have hr : handleLegal rest = true := by simpa [handleLegal, hb] using h
      simpa [List.filter, hb] using ih hr

theorem handleLegal_consuming_last (ops : List TxOp) (h : handleLegal ops = true)
    (pre : List TxOp) (op : TxOp) (suf : List TxOp)
    (he : ops = pre ++ op :: suf) (hc : TxOp.consumesHandle op = true) :
    suf = [] := by
  induction pre generalizing ops with
  | nil =>
    subst he
    have hr : suf.isEmpty = true := by simpa [handleLegal, hc] using h
    cases suf with
    | nil => rfl
    | cons b l => simp [List.isEmpty] at hr
  | cons b pre ih =>
    subst he
    by_cases hb : TxOp.consumesHandle b = true
    · have hr := h
      simp [handleLegal, hb] at hr
    · have hbf : TxOp.consumesHandle b = false := by
        cases hbv : TxOp.consumesHandle b
        · rfl
        · exact absurd hbv hb
      have hr : handleLegal (pre ++ op :: suf) = true := by
        simpa [handleLegal, hbf] using h
      exact ih _ hr rfl

/-- C1: for every sequence of operations a caller can issue on one handle
(as admitted by the receiver modes of the source: `execute` borrows, `commit`
and `rollback` consume), at most one of commit/rollback ever occurs, and once
a consuming operation occurs no further operation of any kind follows it. -/
theorem tx_resolution_consumes_handle (ops : List TxOp)
    (h : handleLegal ops = true) :
    (ops.filter TxOp.consumesHandle).length ≤ 1 ∧
      ∀ pre op suf, ops = pre ++ op :: suf →
        TxOp.consumesHandle op = true → suf = [] := by
  refine ⟨handleLegal_filter_le_one ops h, ?_⟩
  intro pre op suf he hc
  exact handleLegal_consuming_last ops h pre op suf he hc

/-- Closed witness for C1 at a concrete legal operation sequence. -/
theorem tx_resolution_consumes_handle_witness :
    handleLegal [TxOp.execute (Statement.new "X"), TxOp.commit] = true ∧
      (([TxOp.execute (Statement.new "X"), TxOp.commit]).filter
          TxOp.consumesHandle).length ≤ 1 :=
  ⟨by decide,
    (tx_resolution_consumes_handle
      [TxOp.execute (Statement.new "X"), TxOp.commit] (by decide)).1⟩

/-- C2: `new` makes exactly one client call — `raw_batch` on the single-element
batch `[Statement::new("BEGIN")]` — before returning, and its result is the
client's response mapped to an open handle holding that client: on success the
handle holds the given client, on failure the error is returned instead. -/
theorem tx_new_single_begin_batch (client : Client E R) (tr : List ClientCall) :
    Transaction.new client tr =
      ((client.rawBatchResp tr [Statement.new "BEGIN"]).map
          (fun _ => Transaction.mk client),
        tr ++ [ClientCall.rawBatch [Statement.new "BEGIN"]]) :=
  Transaction.new_eq client tr

/-- C3: after a successful `new`, running any sequence of `execute` calls makes
the client observe exactly one BEGIN batch call followed by the issued
statements in exactly the order issued — no reordering, no extra batching. -/
theorem tx_statements_in_issue_order (client : Client E R) (tr : List ClientCall)
    (t : Transaction E R) (stmts : List Statement)
    (_h : (Transaction.new client tr).1 = Except.ok t) :
    (runExecutes t (Transaction.new client tr).2 stmts).2 =
      tr ++ [ClientCall.rawBatch [Statement.new "BEGIN"]] ++
        stmts.map ClientCall.execute := by
  rw [runExecutes_trace]
  rw [Transaction.new_eq]

/-- Closed witness for C3: a successful BEGIN followed by two statements. -/
theorem tx_statements_in_issue_order_witness :
    (runExecutes (Transaction.mk okClient) (Transaction.new okClient []).2
        [Statement.new "S1", Statement.new "S2"]).2 =
      [] ++ [ClientCall.rawBatch [Statement.new "BEGIN"]] ++
        ([Statement.new "S1", Statement.new "S2"]).map ClientCall.execute :=
  tx_statements_in_issue_order okClient [] (Transaction.mk okClient)
    [Statement.new "S1", Statement.new "S2"] rfl

/-- C4: `execute` converts its argument into a canonical `Statement`, forwards
it verbatim as a single call to the client's single-statement execute
operation, and returns the client's response unchanged — the same result set
on success, the same error on failure, with no retry and no extra call. -/
theorem tx_execute_forwards_verbatim (t : Transaction E R) (tr : List ClientCall)
    (into : α → Statement) (x : α) :
    Transaction.execute t tr into x =
      (t.client.executeResp tr (into x), tr ++ [ClientCall.execute (into x)]) :=
  rfl

/-- C5: a failed `execute` adds only that one execute call to the trace (no
automatic ROLLBACK is issued) and does not resolve the handle: issuing
`execute` then `rollback` (or `commit`) is a legal handle use, and the same
handle's subsequent `rollback` sends the literal ROLLBACK statement (likewise
`commit` sends COMMIT). -/
theorem tx_execute_failure_leaves_open (t : Transaction E R)
    (tr tr' : List ClientCall) (into : α → Statement) (x : α) (e : E)
    (h : Transaction.execute t tr into x = (Except.error e, tr')) :
    tr' = tr ++ [ClientCall.execute (into x)] ∧
      handleLegal [TxOp.execute (into x), TxOp.rollback] = true ∧
      handleLegal [TxOp.execute (into x), TxOp.commit] = true ∧
      (Transaction.rollback t tr').2 =
        tr' ++ [ClientCall.execute (Statement.new "ROLLBACK")] ∧
      (Transaction.commit t tr').2 =
        tr' ++ [ClientCall.execute (Statement.new "COMMIT")] := by
  have htr : tr' = tr ++ [ClientCall.execute (into x)] := by
    have := congrArg Prod.snd h
    simpa [Transaction.execute, Client.execute] using this.symm
  refine ⟨htr, rfl, rfl, ?_, ?_⟩
  · rw [Transaction.rollback_eq]
  · rw [Transaction.commit_eq]

/-- Closed witness for C5: a client that rejects statement execution. -/
theorem tx_execute_failure_leaves_open_witness :
    (Transaction.rollback (Transaction.mk execFailClient)
        [ClientCall.execute (Statement.new "S")]).2 =
      [ClientCall.execute (Statement.new "S")] ++
        [ClientCall.execute (Statement.new "ROLLBACK")] :=
  (tx_execute_failure_leaves_open (Transaction.mk execFailClient) []
    [ClientCall.execute (Statement.new "S")] id (Statement.new "S")
    "stmt failed" rfl).2.2.2.1

/-- C6: `commit` makes exactly one client call, a single-statement execute of
the literal COMMIT (not a batch), and `rollback` likewise of the literal
ROLLBACK; each returns the unit value on success and the client's error
unchanged on failure. -/
theorem tx_commit_rollback_literal_statements (t : Transaction E R)
    (tr : List ClientCall) :
    Transaction.commit t tr =
      ((t.client.executeResp tr (Statement.new "COMMIT")).map (fun _ => ()),
        tr ++ [ClientCall.execute (Statement.new "COMMIT")]) ∧
      Transaction.rollback t tr =
        ((t.client.executeResp tr (Statement.new "ROLLBACK")).map (fun _ => ()),
          tr ++ [ClientCall.execute (Statement.new "ROLLBACK")]) :=
  ⟨Transaction.commit_eq t tr, Transaction.rollback_eq t tr⟩

/-- C7: when the client's response to the BEGIN batch is an error, `new`
returns that error unchanged, produces no handle, and the trace shows exactly
the one BEGIN batch call — no retry and no further client call. -/
theorem tx_new_failure_propagates (client : Client E R) (tr : List ClientCall)
    (e : E) (h : client.rawBatchResp tr [Statement.new "BEGIN"] = Except.error e) :
    Transaction.new client tr =
      (Except.error e, tr ++ [ClientCall.rawBatch [Statement.new "BEGIN"]]) := by
  rw [Transaction.new_eq, h]
  rfl

/-- Closed witness for C7: a client that rejects the BEGIN batch. -/
theorem tx_new_failure_propagates_witness :
    Transaction.new failClient [] =
      (Except.error "down", [] ++ [ClientCall.rawBatch [Statement.new "BEGIN"]]) :=
  tx_new_failure_propagates failClient [] "down" rfl

/-- C8: `new` followed immediately by `commit`, with no intervening `execute`,
produces exactly two client calls: the BEGIN batch, then the single-statement
execute of COMMIT. -/
theorem tx_begin_commit_two_calls (client : Client E R) (tr : List ClientCall)
    (t : Transaction E R) (_h : (Transaction.new client tr).1 = Except.ok t) :
    (Transaction.commit t (Transaction.new client tr).2).2 =
      tr ++ [ClientCall.rawBatch [Statement.new "BEGIN"],
        ClientCall.execute (Statement.new "COMMIT")] := by
  have h2 : (Transaction.new client tr).2 =
      tr ++ [ClientCall.rawBatch [Statement.new "BEGIN"]] := by
    rw [Transaction.new_eq]
  rw [Transaction.commit_eq, h2]
  simp

/-- Closed witness for C8: BEGIN then COMMIT against a successful client. -/
theorem tx_begin_commit_two_calls_witness :
    (Transaction.commit (Transaction.mk okClient)
        (Transaction.new okClient []).2).2 =
      [] ++ [ClientCall.rawBatch [Statement.new "BEGIN"],
        ClientCall.execute (Statement.new "COMMIT")] :=
  tx_begin_commit_two_calls okClient [] (Transaction.mk okClient) rfl

/-- C9: when the client's execution of the terminal statement succeeds with
some result set, `commit` (resp. `rollback`) discards that result set and
returns exactly the unit value; the result set is never exposed. -/
theorem tx_terminal_result_discarded (t : Transaction E R) (tr : List ClientCall)
    (r r' : R)
    (hc : t.client.executeResp tr (Statement.new "COMMIT") = Except.ok r)
    (hr : t.client.executeResp tr (Statement.new "ROLLBACK") = Except.ok r') :
    (Transaction.commit t tr).1 = Except.ok () ∧
      (Transaction.rollback t tr).1 = Except.ok () := by
  constructor
  · rw [Transaction.commit_eq]
    simp [hc, Except.map]
  · rw [Transaction.rollback_eq]
    simp [hr, Except.map]

/-- Closed witness for C9 against a successful client. -/
theorem tx_terminal_result_discarded_witness :
    (Transaction.commit (Transaction.mk okClient) []).1 = Except.ok () ∧
      (Transaction.rollback (Transaction.mk okClient) []).1 = Except.ok () :=
  tx_terminal_result_discarded (Transaction.mk okClient) [] 0 0 rfl rfl

/-- C10: the handle's only state is its client reference, and `execute`
(taking the handle by shared reference) never changes it: every handle equals
the handle rebuilt from its client field, and after any sequence of `execute`
calls — whatever the client's responses — the handle is the one started with,
holding the same client. -/
theorem tx_handle_immutable (t : Transaction E R) (tr : List ClientCall)
    (stmts : List Statement) :
    t = Transaction.mk t.client ∧
      (runExecutes t tr stmts).1 = t ∧
      (runExecutes t tr stmts).1.client = t.client := by
  refine ⟨rfl, runExecutes_handle t tr stmts, ?_⟩
  rw [runExecutes_handle]

end LibsqlClient
